import Mathlib

/-! check-procs: filter evaluation and severity aggregation

A shallow embedding of `check-procs/lib/check_procs.go`.

* The process-wide `opts` struct is the record `Opts`, passed explicitly to
  every function that reads the global in the source.
* `int64` values are `Int` (the code only compares them, so no wrap-around
  is involved); `*int64` is `Option Int`; `float64` is `F64`.
* The Go libraries the code calls (`regexp`, `os.Getpid`, `os.Getppid`) and
  the platform specific `getProcs` are collected in `Env`.
-/

namespace CheckProcs

/-! ## Library types -/

/-- Status of `github.com/mackerelio/checkers`: `OK`, `WARNING`, `CRITICAL`,
`UNKNOWN`, declared with `iota` in that order. -/
inductive Status where
  | OK
  | WARNING
  | CRITICAL
  | UNKNOWN
  deriving DecidableEq, Repr

/-- The integer behind a `checkers.Status` constant. -/
def Status.toInt : Status → Int
  | .OK => 0
  | .WARNING => 1
  | .CRITICAL => 2
  | .UNKNOWN => 3

/-- The fields of `checkers.Checker` that `run` sets. -/
structure Checker where
  Status : Status
  Message : String
  deriving DecidableEq, Repr

/-- The constructor `checkers.NewChecker(st, msg)`. -/
def NewChecker (st : Status) (msg : String) : Checker :=
  ⟨st, msg⟩

/-- A `float64`: not-a-number, an infinity with its sign, or a finite value.
Finite values are kept as rationals; the two zeros are the one value `fin 0`,
which the comparisons of the code cannot tell apart. -/
inductive F64 where
  | nan
  | inf (neg : Bool)
  | fin (q : ℚ)
  deriving DecidableEq

/-- Go `x == 0` on `float64`. -/
def F64.isZero : F64 → Bool
  | .fin q => decide (q = 0)
  | _ => false

/-- Go `x <= y` on `float64` (false as soon as one side is not-a-number). -/
def F64.le : F64 → F64 → Bool
  | .nan, _ => false
  | _, .nan => false
  | .inf true, _ => true
  | .inf false, .inf false => true
  | .inf false, _ => false
  | .fin _, .inf neg => !neg
  | .fin a, .fin b => decide (a ≤ b)

/-- A compiled `*regexp.Regexp`: `str` is what `String()` returns (the source
text of the expression), `MatchString` the matcher. -/
structure Regexp where
  str : String
  MatchString : String → Bool

/-- The expression `regexp.MustCompile(".*")`: it compiles, and it matches
every string (the empty match at offset 0 is always available). -/
def matchAllRegexp : Regexp :=
  ⟨".*", fun _ => true⟩

/-! ## Data model of the source -/

/-- The struct behind the global `opts`, one field per flag. -/
structure Opts where
  WarningOver : Option Int
  WarnOver : Option Int
  CritOver : Option Int
  WarningUnder : Int
  WarnUnder : Int
  CritUnder : Int
  MatchSelf : Bool
  MatchParent : Bool
  CmdPatterns : List String
  CmdExcludePat : String
  Ppid : String
  FilePid : String
  Vsz : Int
  Rss : Int
  Pcpu : F64
  Thcount : Int
  State : String
  User : String
  Usernot : String
  EsecOver : Int
  EsecUnder : Int
  CPUOver : Int
  CPUUnder : Int

/-- The value of `opts` when no flag is given: the `default:"1"` tags for
`WarningUnder`, `WarnUnder` and `CritUnder`, the zero value elsewhere. -/
def defaultOpts : Opts where
  WarningOver := none
  WarnOver := none
  CritOver := none
  WarningUnder := 1
  WarnUnder := 1
  CritUnder := 1
  MatchSelf := false
  MatchParent := false
  CmdPatterns := []
  CmdExcludePat := ""
  Ppid := ""
  FilePid := ""
  Vsz := 0
  Rss := 0
  Pcpu := .fin 0
  Thcount := 0
  State := ""
  User := ""
  Usernot := ""
  EsecOver := 0
  EsecUnder := 0
  CPUOver := 0
  CPUUnder := 0

/-- One process record. -/
structure procState where
  cmd : String
  user : String
  ppid : String
  pid : String
  vsz : Int
  rss : Int
  pcpu : F64
  thcount : Int
  state : String
  esec : Int
  csec : Int

/-- What `run` obtains from outside the file: the regular expression
compiler (`regexp.Compile` gives the error text or the matcher), the pid and
parent pid of the checking process, and the outcome of `getProcs`. -/
structure Env where
  compile : String → Except String (String → Bool)
  getpid : Int
  getppid : Int
  getProcs : Except String (List procState)

/-- The call `regexp.Compile(ptn)`; the compiled value remembers its text. -/
def regexpCompile (E : Env) (ptn : String) : Except String Regexp :=
  match E.compile ptn with
  | .error err => .error err
  | .ok m => .ok ⟨ptn, m⟩

/-- The call `strconv.Itoa`. -/
def strconvItoa (n : Int) : String :=
  toString n

/-! ## Severity merger -/

/-- The source function `mergeStatus`, reading `opts`. -/
def mergeStatus (opts : Opts) (count : Int) (current : Status) : Status :=
  let result : Status :=
    if (decide (opts.CritUnder ≠ 0) && decide (count < opts.CritUnder)) ||
        (match opts.CritOver with
         | some critOver => decide (count > critOver)
         | none => false) then
      Status.CRITICAL
    else if (decide (opts.WarningUnder ≠ 0) && decide (count < opts.WarningUnder)) ||
        (match opts.WarningOver with
         | some warningOver => decide (count > warningOver)
         | none => false) then
      Status.WARNING
    else
      Status.OK
  if result.toInt > Status.WARNING.toInt then
    Status.CRITICAL
  else if result.toInt > Status.OK.toInt then
    Status.WARNING
  else
    Status.OK

/-- The critical condition of the specification on a count. -/
def critCond (opts : Opts) (count : Int) : Prop :=
  (opts.CritUnder ≠ 0 ∧ count < opts.CritUnder) ∨
    (∃ critOver, opts.CritOver = some critOver ∧ count > critOver)

/-- The warning condition of the specification on a count. -/
def warnCond (opts : Opts) (count : Int) : Prop :=
  (opts.WarningUnder ≠ 0 ∧ count < opts.WarningUnder) ∨
    (∃ warningOver, opts.WarningOver = some warningOver ∧ count > warningOver)

/-! ## Process matcher -/

/-- The source function `matchProc`, reading `opts`; `E` gives the pid and
parent pid of the checking process. -/
def matchProc (E : Env) (opts : Opts) (proc : procState)
    (cmdPatRegexp : Regexp) (cmdExcludePatRegexp : Regexp) : Bool :=
  (opts.CmdPatterns.length == 0 || cmdPatRegexp.MatchString proc.cmd) &&
  (opts.CmdExcludePat == "" || !cmdExcludePatRegexp.MatchString proc.cmd) &&
  (opts.MatchSelf || proc.pid != strconvItoa E.getpid) &&
  (opts.MatchParent || proc.pid != strconvItoa E.getppid) &&
  (opts.Ppid == "" || proc.ppid == opts.Ppid) &&
  (opts.FilePid == "" || proc.pid == opts.FilePid) &&
  (opts.Vsz == 0 || decide (proc.vsz ≤ opts.Vsz)) &&
  (opts.Rss == 0 || decide (proc.rss ≤ opts.Rss)) &&
  (opts.Pcpu.isZero || F64.le proc.pcpu opts.Pcpu) &&
  (opts.Thcount == 0 || decide (proc.thcount ≤ opts.Thcount)) &&
  (opts.State == "" || proc.state == opts.State) &&
  (opts.User == "" || proc.user == opts.User) &&
  (opts.Usernot == "" || proc.user != opts.Usernot) &&
  (opts.EsecUnder == 0 || decide (proc.esec < opts.EsecUnder)) &&
  (opts.EsecOver == 0 || decide (proc.esec > opts.EsecOver)) &&
  (opts.CPUUnder == 0 || decide (proc.csec < opts.CPUUnder)) &&
  (opts.CPUOver == 0 || decide (proc.csec > opts.CPUOver))

/-! ## Message composer -/

/-- The verb `%d` of `fmt.Sprintf` on an `int64`. -/
def fmtD (n : Int) : String :=
  toString n

/-- Rounding of a non-negative rational to the nearest natural number, ties
to the even neighbour. -/
def roundHalfEven (x : ℚ) : Nat :=
  let f : Nat := ⌊x⌋.toNat
  let r : ℚ := x - f
  if r < 1 / 2 then f
  else if 1 / 2 < r then f + 1
  else if f % 2 = 0 then f
  else f + 1

/-- The decimal digits of `k`, padded with zeros on the left to six places. -/
def padSix (k : Nat) : String :=
  let d := toString k
  String.mk (List.replicate (6 - d.length) '0') ++ d

/-- The verb `%f` of `fmt.Sprintf` on a `float64`: six decimals, correctly
rounded from the exact value. -/
def fmtF : F64 → String
  | .nan => "NaN"
  | .inf true => "-Inf"
  | .inf false => "+Inf"
  | .fin q =>
    let n := roundHalfEven (|q| * 1000000)
    (if q < 0 then "-" else "") ++ toString (n / 1000000) ++ "." ++ padSix (n % 1000000)

/-- The source function `gatherMsg`, reading `opts`. -/
def gatherMsg (opts : Opts) (count : Int) (pattern : String) : String :=
  let msg := "Found " ++ fmtD count ++ " matching processes"
  let msg := if opts.CmdPatterns.length != 0 then msg ++ ("; cmd /" ++ pattern ++ "/") else msg
  let msg := if opts.State != "" then msg ++ ("; state /" ++ opts.State ++ "/") else msg
  let msg := if opts.User != "" then msg ++ ("; user /" ++ opts.User ++ "/") else msg
  let msg := if opts.Usernot != "" then msg ++ ("; usernot /" ++ opts.Usernot ++ "/") else msg
  let msg := if opts.Vsz != 0 then msg ++ ("; vsz < " ++ fmtD opts.Vsz) else msg
  let msg := if opts.Rss != 0 then msg ++ ("; rss < " ++ fmtD opts.Rss) else msg
  let msg := if !opts.Pcpu.isZero then msg ++ ("; pcpu < " ++ fmtF opts.Pcpu) else msg
  let msg := if opts.Thcount != 0 then msg ++ ("; thcount < " ++ fmtD opts.Thcount) else msg
  let msg := if opts.EsecUnder != 0 then msg ++ ("; esec < " ++ fmtD opts.EsecUnder) else msg
  let msg := if opts.EsecOver != 0 then msg ++ ("; esec > " ++ fmtD opts.EsecOver) else msg
  let msg := if opts.CPUUnder != 0 then msg ++ ("; csec < " ++ fmtD opts.CPUUnder) else msg
  let msg := if opts.CPUOver != 0 then msg ++ ("; csec > " ++ fmtD opts.CPUOver) else msg
  let msg := if opts.Ppid != "" then msg ++ ("; ppid " ++ opts.Ppid) else msg
  let msg := if opts.FilePid != "" then msg ++ ("; pid " ++ opts.FilePid) else msg
  msg

/-! ## Run orchestrator -/

/-- The two `for backward compatibility` assignments at the head of `run`. -/
def backwardCompat (opts : Opts) : Opts :=
  let opts :=
    if opts.WarnUnder != 1 && opts.WarningUnder == 1 then
      { opts with WarningUnder := opts.WarnUnder }
    else opts
  let opts :=
    if opts.WarnOver.isSome && opts.WarningOver.isNone then
      { opts with WarningOver := opts.WarnOver }
    else opts
  opts

/-- The loop of `run` over `opts.CmdPatterns` that fills `cmdPatRegexp`: the
first pattern that does not compile ends it with the error text. -/
def compilePatterns (E : Env) : List String → List Regexp → Except String (List Regexp)
  | [], cmdPatRegexp => .ok cmdPatRegexp
  | ptn :: rest, cmdPatRegexp =>
    match regexpCompile E ptn with
    | .error err => .error err
    | .ok r => compilePatterns E rest (cmdPatRegexp ++ [r])

/-- The statements of `run` that set `cmdExcludePatRegexp`. -/
def compileExclude (E : Env) (opts : Opts) : Except String Regexp :=
  if opts.CmdExcludePat != "" then
    match regexpCompile E opts.CmdExcludePat with
    | .error err => .error err
    | .ok r => .ok r
  else .ok matchAllRegexp

/-- The variables of `run` that live across the iterations of its loop over
the patterns. -/
structure LoopState where
  result : Status
  msg : String
  resultrocStates : List procState

/-- The inner loop of `run`: the processes accepted by `matchProc` are
appended to `resultrocStates`. -/
def scanProcs (E : Env) (opts : Opts) (reg : Regexp) (cmdExcludePatRegexp : Regexp)
    (procs : List procState) (resultrocStates : List procState) : List procState :=
  procs.foldl
    (fun acc proc => if matchProc E opts proc reg cmdExcludePatRegexp then acc ++ [proc] else acc)
    resultrocStates

/-- One iteration of the loop of `run` over `cmdPatRegexp`. -/
def patternStep (E : Env) (opts : Opts) (cmdExcludePatRegexp : Regexp)
    (procs : List procState) (st : LoopState) (reg : Regexp) : LoopState :=
  let resultrocStates := scanProcs E opts reg cmdExcludePatRegexp procs st.resultrocStates
  let count : Int := (resultrocStates.length : Nat)
  { result := mergeStatus opts count st.result
    msg := st.msg ++ ("\n" ++ gatherMsg opts count reg.str)
    resultrocStates := [] }

/-- The loop of `run` over `cmdPatRegexp`, from `result := checkers.OK`, an
empty `msg` and a nil `resultrocStates`. -/
def patternLoop (E : Env) (opts : Opts) (cmdExcludePatRegexp : Regexp)
    (procs : List procState) (cmdPatRegexp : List Regexp) : LoopState :=
  cmdPatRegexp.foldl (patternStep E opts cmdExcludePatRegexp procs) ⟨Status.OK, "", []⟩

/-- The source function `run`, after the flags are parsed into `opts0`. -/
def run (E : Env) (opts0 : Opts) : Checker :=
  let opts := backwardCompat opts0
  match E.getProcs with
  | .error err => NewChecker Status.UNKNOWN err
  | .ok procs =>
    match compilePatterns E opts.CmdPatterns [] with
    | .error err => NewChecker Status.UNKNOWN err
    | .ok cmdPatRegexp =>
      let cmdPatRegexp :=
        if cmdPatRegexp.length == 0 then cmdPatRegexp ++ [matchAllRegexp] else cmdPatRegexp
      match compileExclude E opts with
      | .error err => NewChecker Status.UNKNOWN err
      | .ok cmdExcludePatRegexp =>
        let st := patternLoop E opts cmdExcludePatRegexp procs cmdPatRegexp
        NewChecker st.result st.msg

/-! ## A small regular expression engine for closed examples -/

/-- Whether the text begins with the characters of `p`. -/
def beginsWith : List Char → List Char → Bool
  | [], _ => true
  | _ :: _, [] => false
  | a :: p, b :: t => a == b && beginsWith p t

/-- Whether `p` occurs somewhere in the text. -/
def occursIn (p : List Char) : List Char → Bool
  | [] => beginsWith p []
  | c :: t => beginsWith p (c :: t) || occursIn p t

/-- An instance of the compiler parameter for closed examples. A pattern of
letters and digits only compiles to the search for that text, as it does in
Go; any other pattern is refused, as Go refuses `[foo`, with a text of the
form Go gives for a bracket left open. -/
def sampleCompile (ptn : String) : Except String (String → Bool) :=
  if ptn.toList.all Char.isAlphanum then
    .ok (fun s => occursIn ptn.toList s.toList)
  else
    .error ("error parsing regexp: missing closing ]: `" ++ ptn ++ "`")

/-- A process record with the given pid, command and user, a sleeping
process with no resource use. -/
def sampleProc (pid cmd user : String) : procState where
  cmd := cmd
  user := user
  ppid := "1"
  pid := pid
  vsz := 0
  rss := 0
  pcpu := .fin 0
  thcount := 1
  state := "S"
  esec := 0
  csec := 0

/-- An environment for closed examples: the checking process has pid 100 and
parent pid 99, and `getProcs` returns the given list. -/
def sampleEnv (procs : List procState) : Env where
  compile := sampleCompile
  getpid := 100
  getppid := 99
  getProcs := .ok procs

/-- The search for the text `ptn`, what `sampleCompile` gives for a pattern
of letters and digits. -/
def literalRegexp (ptn : String) : Regexp :=
  ⟨ptn, fun s => occursIn ptn.toList s.toList⟩

/-- Three processes whose command contains `bar` and not `foo`. -/
def threeBars : List procState :=
  [sampleProc "1" "bar" "root", sampleProc "2" "bar -x" "root", sampleProc "3" "/bin/bar" "bob"]

/-- The default options with the two include patterns `foo` and `bar`. -/
def fooBarOpts : Opts :=
  { defaultOpts with CmdPatterns := ["foo", "bar"] }

/-- The default options with the state filter set to zombie processes. -/
def zombieOpts : Opts :=
  { defaultOpts with State := "Z" }

/-! ## The message as the specification describes it -/

/-- The fourteen criteria of the message in their fixed order (cmd, state,
user, usernot, vsz, rss, pcpu, thcount, esec-under, esec-over, csec-under,
csec-over, ppid, pid): whether the criterion is configured, and its clause. -/
def criteriaClauses (opts : Opts) (pattern : String) : List (Bool × String) :=
  [ (opts.CmdPatterns.length != 0, "; cmd /" ++ pattern ++ "/"),
    (opts.State != "", "; state /" ++ opts.State ++ "/"),
    (opts.User != "", "; user /" ++ opts.User ++ "/"),
    (opts.Usernot != "", "; usernot /" ++ opts.Usernot ++ "/"),
    (opts.Vsz != 0, "; vsz < " ++ fmtD opts.Vsz),
    (opts.Rss != 0, "; rss < " ++ fmtD opts.Rss),
    (!opts.Pcpu.isZero, "; pcpu < " ++ fmtF opts.Pcpu),
    (opts.Thcount != 0, "; thcount < " ++ fmtD opts.Thcount),
    (opts.EsecUnder != 0, "; esec < " ++ fmtD opts.EsecUnder),
    (opts.EsecOver != 0, "; esec > " ++ fmtD opts.EsecOver),
    (opts.CPUUnder != 0, "; csec < " ++ fmtD opts.CPUUnder),
    (opts.CPUOver != 0, "; csec > " ++ fmtD opts.CPUOver),
    (opts.Ppid != "", "; ppid " ++ opts.Ppid),
    (opts.FilePid != "", "; pid " ++ opts.FilePid) ]

/-- The clauses of the configured criteria, in order. -/
def configuredClauses (opts : Opts) (pattern : String) : List String :=
  ((criteriaClauses opts pattern).filter (fun c => c.1)).map (fun c => c.2)

/-! ## The loop of `run` as the specification describes it -/

/-- The number of processes of the list that `matchProc` accepts for one
include pattern. -/
def matchCount (E : Env) (opts : Opts) (procs : List procState) (reg : Regexp)
    (cmdExcludePatRegexp : Regexp) : Int :=
  ((procs.filter (fun proc => matchProc E opts proc reg cmdExcludePatRegexp)).length : Nat)

/-- The patterns the loop of `run` goes over: the compiled include patterns,
or the match-everything pattern alone when there is none. -/
def evaluatedPatterns (cmdPatRegexp : List Regexp) : List Regexp :=
  if cmdPatRegexp.length == 0 then cmdPatRegexp ++ [matchAllRegexp] else cmdPatRegexp

/-- The message fragment of one pattern with the newline `run` puts before it. -/
def fragmentLine (E : Env) (opts : Opts) (procs : List procState)
    (cmdExcludePatRegexp : Regexp) (reg : Regexp) : String :=
  "\n" ++ gatherMsg opts (matchCount E opts procs reg cmdExcludePatRegexp) reg.str

/-- The message fragment of one pattern. -/
def fragment (E : Env) (opts : Opts) (procs : List procState)
    (cmdExcludePatRegexp : Regexp) (reg : Regexp) : String :=
  gatherMsg opts (matchCount E opts procs reg cmdExcludePatRegexp) reg.str

/-- The default options with the deprecated flag `--warn-under 3` and
`--warn-over 7`. -/
def deprecatedOpts : Opts :=
  { defaultOpts with WarnUnder := 3, WarnOver := some 7 }

/-- A regular expression that matches no string. -/
def matchNoneRegexp : Regexp :=
  ⟨"$^", fun _ => false⟩

/-! ## Theorems on the severity merger -/

/-- The first stage of `mergeStatus` already yields one of the three
severities, so its second stage returns it unchanged. -/
theorem mergeStatus_eq (opts : Opts) (count : Int) (current : Status) :
    mergeStatus opts count current =
      if (decide (opts.CritUnder ≠ 0) && decide (count < opts.CritUnder)) ||
          (match opts.CritOver with
           | some critOver => decide (count > critOver)
           | none => false) then
        Status.CRITICAL
      else if (decide (opts.WarningUnder ≠ 0) && decide (count < opts.WarningUnder)) ||
          (match opts.WarningOver with
           | some warningOver => decide (count > warningOver)
           | none => false) then
        Status.WARNING
      else
        Status.OK := by
  unfold mergeStatus
  split_ifs <;> simp_all [Status.toInt]

/-- The boolean test for CRITICAL in `mergeStatus` is the critical condition. -/
theorem critTest_iff (opts : Opts) (count : Int) :
    ((decide (opts.CritUnder ≠ 0) && decide (count < opts.CritUnder)) ||
        (match opts.CritOver with
         | some critOver => decide (count > critOver)
         | none => false)) = true ↔ critCond opts count := by
  unfold critCond
  cases opts.CritOver <;> simp

/-- The boolean test for WARNING in `mergeStatus` is the warning condition. -/
theorem warnTest_iff (opts : Opts) (count : Int) :
    ((decide (opts.WarningUnder ≠ 0) && decide (count < opts.WarningUnder)) ||
        (match opts.WarningOver with
         | some warningOver => decide (count > warningOver)
         | none => false)) = true ↔ warnCond opts count := by
  unfold warnCond
  cases opts.WarningOver <;> simp

/-- When the critical condition holds `mergeStatus` returns CRITICAL. -/
theorem mergeStatus_of_crit (opts : Opts) (count : Int) (current : Status)
    (h : critCond opts count) : mergeStatus opts count current = Status.CRITICAL := by
  rw [mergeStatus_eq, if_pos ((critTest_iff opts count).mpr h)]

/-- When only the warning condition holds `mergeStatus` returns WARNING. -/
theorem mergeStatus_of_warn (opts : Opts) (count : Int) (current : Status)
    (hc : ¬ critCond opts count) (hw : warnCond opts count) :
    mergeStatus opts count current = Status.WARNING := by
  rw [mergeStatus_eq, if_neg (fun h => hc ((critTest_iff opts count).mp h)),
    if_pos ((warnTest_iff opts count).mpr hw)]

/-- When neither condition holds `mergeStatus` returns OK. -/
theorem mergeStatus_of_none (opts : Opts) (count : Int) (current : Status)
    (hc : ¬ critCond opts count) (hw : ¬ warnCond opts count) :
    mergeStatus opts count current = Status.OK := by
  rw [mergeStatus_eq, if_neg (fun h => hc ((critTest_iff opts count).mp h)),
    if_neg (fun h => hw ((warnTest_iff opts count).mp h))]

/-- C2: for every count and criteria, `mergeStatus` is CRITICAL iff the
critical condition holds (critUnder != 0 and count < critUnder, or critOver
set and count > critOver); it is WARNING iff that fails and the warning
condition holds (warningUnder != 0 and count < warningUnder, or warningOver
set and count > warningOver); it is OK iff both fail. -/
theorem mergeStatus_spec (opts : Opts) (count : Int) (current : Status) :
    (mergeStatus opts count current = Status.CRITICAL ↔ critCond opts count) ∧
    (mergeStatus opts count current = Status.WARNING ↔
      ¬ critCond opts count ∧ warnCond opts count) ∧
    (mergeStatus opts count current = Status.OK ↔
      ¬ critCond opts count ∧ ¬ warnCond opts count) := by
  by_cases hc : critCond opts count
  · simp [mergeStatus_of_crit opts count current hc, hc]
  · by_cases hw : warnCond opts count
    · simp [mergeStatus_of_warn opts count current hc hw, hc, hw]
    · simp [mergeStatus_of_none opts count current hc hw, hc, hw]

/-- C5: under the default thresholds (warningUnder = 1, critUnder = 1,
warningOver and critOver unset) `mergeStatus` is CRITICAL for a count of 0,
OK for a count of 1, and OK for every count that is at least 1. -/
theorem mergeStatus_default (opts : Opts) (current : Status)
    (hwu : opts.WarningUnder = 1) (hcu : opts.CritUnder = 1)
    (hwo : opts.WarningOver = none) (hco : opts.CritOver = none) :
    mergeStatus opts 0 current = Status.CRITICAL ∧
    mergeStatus opts 1 current = Status.OK ∧
    ∀ count : Int, 1 ≤ count → mergeStatus opts count current = Status.OK := by
  have hge : ∀ count : Int, 1 ≤ count → mergeStatus opts count current = Status.OK := by
    intro count hcount
    apply mergeStatus_of_none
    · simp only [critCond, hcu, hco]
      rintro (⟨-, h⟩ | ⟨k, hk, -⟩)
      · omega
      · cases hk
    · simp only [warnCond, hwu, hwo]
      rintro (⟨-, h⟩ | ⟨k, hk, -⟩)
      · omega
      · cases hk
  refine ⟨?_, hge 1 le_rfl, hge⟩
  apply mergeStatus_of_crit
  exact Or.inl ⟨by rw [hcu]; decide, by rw [hcu]; decide⟩

/-- The default options satisfy the hypotheses of C5, and the three results
hold for them. -/
theorem mergeStatus_default_witness :
    defaultOpts.WarningUnder = 1 ∧ defaultOpts.CritUnder = 1 ∧
    defaultOpts.WarningOver = none ∧ defaultOpts.CritOver = none ∧
    mergeStatus defaultOpts 0 Status.OK = Status.CRITICAL ∧
    mergeStatus defaultOpts 1 Status.OK = Status.OK ∧
    ∀ count : Int, 1 ≤ count → mergeStatus defaultOpts count Status.OK = Status.OK :=
  ⟨rfl, rfl, rfl, rfl, mergeStatus_default defaultOpts Status.OK rfl rfl rfl rfl⟩

/-- C6: whenever the critical condition holds for a count, `mergeStatus`
returns CRITICAL, and it still does after the two warning thresholds are
replaced by any other values, so also when a warning condition holds. -/
theorem mergeStatus_critical_dominates (opts : Opts) (count : Int) (current : Status)
    (h : critCond opts count) :
    mergeStatus opts count current = Status.CRITICAL ∧
    ∀ (warningUnder : Int) (warningOver : Option Int),
      mergeStatus { opts with WarningUnder := warningUnder, WarningOver := warningOver }
        count current = Status.CRITICAL :=
  ⟨mergeStatus_of_crit opts count current h,
    fun _ _ => mergeStatus_of_crit _ count current h⟩

/-- The example of C6: warningOver = 5, critUnder = 10 and a count of 3. -/
theorem mergeStatus_critical_dominates_witness :
    critCond { defaultOpts with WarningOver := some 5, CritUnder := 10 } 3 ∧
    mergeStatus { defaultOpts with WarningOver := some 5, CritUnder := 10 } 3 Status.OK
      = Status.CRITICAL :=
  ⟨Or.inl ⟨by decide, by decide⟩,
    (mergeStatus_critical_dominates
      { defaultOpts with WarningOver := some 5, CritUnder := 10 } 3 Status.OK
      (Or.inl ⟨by decide, by decide⟩)).1⟩

/-- C7: with critOver set, for counts c <= c2 where c2 is above critOver, the
severity for c2 is at least the severity for c in the order
OK < WARNING < CRITICAL, the other thresholds being the same. -/
theorem mergeStatus_mono_past_critOver (opts : Opts) (critOver : Int)
    (c c2 : Int) (current current2 : Status)
    (hset : opts.CritOver = some critOver) (_hle : c ≤ c2) (hgt : c2 > critOver) :
    (mergeStatus opts c current).toInt ≤ (mergeStatus opts c2 current2).toInt := by
  have h2 : mergeStatus opts c2 current2 = Status.CRITICAL :=
    mergeStatus_of_crit opts c2 current2 (Or.inr ⟨critOver, hset, hgt⟩)
  rw [h2]
  rw [mergeStatus_eq]
  split_ifs <;> simp [Status.toInt]

/-- An instance of C7: critOver = 5, counts 2 and 7 under otherwise default
thresholds. -/
theorem mergeStatus_mono_past_critOver_witness :
    (mergeStatus { defaultOpts with CritOver := some 5 } 2 Status.OK).toInt ≤
      (mergeStatus { defaultOpts with CritOver := some 5 } 7 Status.OK).toInt :=
  mergeStatus_mono_past_critOver { defaultOpts with CritOver := some 5 } 5 2 7
    Status.OK Status.OK rfl (by decide) (by decide)

/-! ## Theorems on the process matcher -/

/-- C3: `matchProc` returns true iff all seventeen clauses hold, each clause
being true outright when its criterion is unset; the self and parent clauses
compare the pid of the candidate with the pid and the parent pid of the
checking process. -/
theorem matchProc_iff (E : Env) (opts : Opts) (proc : procState)
    (cmdPatRegexp cmdExcludePatRegexp : Regexp) :
    matchProc E opts proc cmdPatRegexp cmdExcludePatRegexp = true ↔
      (opts.CmdPatterns = [] ∨ cmdPatRegexp.MatchString proc.cmd = true) ∧
      (opts.CmdExcludePat = "" ∨ cmdExcludePatRegexp.MatchString proc.cmd = false) ∧
      (opts.MatchSelf = true ∨ proc.pid ≠ strconvItoa E.getpid) ∧
      (opts.MatchParent = true ∨ proc.pid ≠ strconvItoa E.getppid) ∧
      (opts.Ppid = "" ∨ proc.ppid = opts.Ppid) ∧
      (opts.FilePid = "" ∨ proc.pid = opts.FilePid) ∧
      (opts.Vsz = 0 ∨ proc.vsz ≤ opts.Vsz) ∧
      (opts.Rss = 0 ∨ proc.rss ≤ opts.Rss) ∧
      (opts.Pcpu.isZero = true ∨ F64.le proc.pcpu opts.Pcpu = true) ∧
      (opts.Thcount = 0 ∨ proc.thcount ≤ opts.Thcount) ∧
      (opts.State = "" ∨ proc.state = opts.State) ∧
      (opts.User = "" ∨ proc.user = opts.User) ∧
      (opts.Usernot = "" ∨ proc.user ≠ opts.Usernot) ∧
      (opts.EsecUnder = 0 ∨ proc.esec < opts.EsecUnder) ∧
      (opts.EsecOver = 0 ∨ proc.esec > opts.EsecOver) ∧
      (opts.CPUUnder = 0 ∨ proc.csec < opts.CPUUnder) ∧
      (opts.CPUOver = 0 ∨ proc.csec > opts.CPUOver) := by
  simp only [matchProc, Bool.and_eq_true, Bool.or_eq_true, beq_iff_eq, bne_iff_ne,
    decide_eq_true_eq, Bool.not_eq_true', List.length_eq_zero, and_assoc, ne_eq, gt_iff_lt]

/-- C8 as stated fails: with every numeric filter 0, no command patterns and
matchSelf and matchParent false, a sleeping process whose pid is neither the
pid nor the parent pid of the checking process is rejected when the state
filter asks for zombies. -/
theorem matchProc_unfiltered_counterexample :
    zombieOpts.Vsz = 0 ∧ zombieOpts.Rss = 0 ∧ zombieOpts.Pcpu.isZero = true ∧
    zombieOpts.Thcount = 0 ∧ zombieOpts.EsecOver = 0 ∧ zombieOpts.EsecUnder = 0 ∧
    zombieOpts.CPUOver = 0 ∧ zombieOpts.CPUUnder = 0 ∧
    zombieOpts.CmdPatterns = [] ∧ zombieOpts.CmdExcludePat = "" ∧
    zombieOpts.MatchSelf = false ∧ zombieOpts.MatchParent = false ∧
    (sampleProc "1" "init" "root").pid ≠ strconvItoa (sampleEnv []).getpid ∧
    (sampleProc "1" "init" "root").pid ≠ strconvItoa (sampleEnv []).getppid ∧
    matchProc (sampleEnv []) zombieOpts (sampleProc "1" "init" "root")
      matchAllRegexp matchAllRegexp = false := by
  decide

/-- C8, amended: when every numeric filter is 0, no include pattern is
configured, matchSelf and matchParent are false, and the exclude pattern,
ppid, file-pid, state, user and usernot filters are empty as well, `matchProc`
returns true exactly for the processes whose pid differs from both the pid
and the parent pid of the checking process. -/
theorem matchProc_unfiltered (E : Env) (opts : Opts) (proc : procState)
    (cmdPatRegexp cmdExcludePatRegexp : Regexp)
    (hvsz : opts.Vsz = 0) (hrss : opts.Rss = 0) (hpcpu : opts.Pcpu.isZero = true)
    (hth : opts.Thcount = 0) (heo : opts.EsecOver = 0) (heu : opts.EsecUnder = 0)
    (hco : opts.CPUOver = 0) (hcu : opts.CPUUnder = 0)
    (hpat : opts.CmdPatterns = []) (hself : opts.MatchSelf = false)
    (hparent : opts.MatchParent = false)
    (hex : opts.CmdExcludePat = "") (hppid : opts.Ppid = "") (hfpid : opts.FilePid = "")
    (hstate : opts.State = "") (huser : opts.User = "") (hunot : opts.Usernot = "") :
    (matchProc E opts proc cmdPatRegexp cmdExcludePatRegexp = true ↔
      proc.pid ≠ strconvItoa E.getpid ∧ proc.pid ≠ strconvItoa E.getppid) := by
  simp [matchProc, hvsz, hrss, hpcpu, hth, heo, heu, hco, hcu, hpat, hself, hparent, hex,
    hppid, hfpid, hstate, huser, hunot]

/-- An instance of the amended C8: under the default options the process
with pid 1 is accepted, those with the pid (100) and the parent pid (99) of
the checking process are not. -/
theorem matchProc_unfiltered_witness :
    (matchProc (sampleEnv []) defaultOpts (sampleProc "1" "init" "root")
        matchAllRegexp matchAllRegexp = true ↔
      (sampleProc "1" "init" "root").pid ≠ strconvItoa (sampleEnv []).getpid ∧
      (sampleProc "1" "init" "root").pid ≠ strconvItoa (sampleEnv []).getppid) ∧
    matchProc (sampleEnv []) defaultOpts (sampleProc "1" "init" "root")
        matchAllRegexp matchAllRegexp = true ∧
    matchProc (sampleEnv []) defaultOpts (sampleProc "100" "check-procs" "root")
        matchAllRegexp matchAllRegexp = false ∧
    matchProc (sampleEnv []) defaultOpts (sampleProc "99" "sh" "root")
        matchAllRegexp matchAllRegexp = false :=
  ⟨matchProc_unfiltered (sampleEnv []) defaultOpts (sampleProc "1" "init" "root")
      matchAllRegexp matchAllRegexp rfl rfl (by decide) rfl rfl rfl rfl rfl rfl rfl rfl
      rfl rfl rfl rfl rfl rfl,
    by decide, by decide, by decide⟩

/-- C9: for a non-empty user name u, `matchProc` with usernot set to u is the
conjunction of (user of the process != u) and `matchProc` with usernot
cleared, every other criterion being the same. -/
theorem matchProc_usernot (E : Env) (opts : Opts) (proc : procState)
    (cmdPatRegexp cmdExcludePatRegexp : Regexp) (u : String) (hu : u ≠ "") :
    matchProc E { opts with Usernot := u } proc cmdPatRegexp cmdExcludePatRegexp =
      (proc.user != u &&
        matchProc E { opts with Usernot := "" } proc cmdPatRegexp cmdExcludePatRegexp) := by
  have hne : (u == "") = false := by simpa using hu
  simp only [matchProc, hne, Bool.false_or, beq_self_eq_true, Bool.true_or, Bool.true_and]
  cases (proc.user != u) <;> simp

/-- An instance of C9 with usernot = root: a process of root is rejected, a
process of another user is accepted as it is without the filter. -/
theorem matchProc_usernot_witness :
    matchProc (sampleEnv []) { defaultOpts with Usernot := "root" }
        (sampleProc "1" "init" "root") matchAllRegexp matchAllRegexp = false ∧
    matchProc (sampleEnv []) { defaultOpts with Usernot := "root" }
        (sampleProc "2" "sshd" "bob") matchAllRegexp matchAllRegexp = true := by
  refine ⟨?_, ?_⟩
  · rw [matchProc_usernot (sampleEnv []) defaultOpts (sampleProc "1" "init" "root")
      matchAllRegexp matchAllRegexp "root" (by decide)]
    decide
  · rw [matchProc_usernot (sampleEnv []) defaultOpts (sampleProc "2" "sshd" "bob")
      matchAllRegexp matchAllRegexp "root" (by decide)]
    decide

/-! ## Theorems on the message composer -/

/-- Joining a list of strings that starts with `a`. -/
theorem join_cons (a : String) (l : List String) :
    String.join (a :: l) = a ++ String.join l := by
  apply String.ext
  simp [String.data_join]

/-- Appending the configured clauses one after the other, as `gatherMsg`
does, appends their concatenation. -/
theorem foldl_clauses (cs : List (Bool × String)) (msg : String) :
    cs.foldl (fun m c => if c.1 = true then m ++ c.2 else m) msg =
      msg ++ String.join ((cs.filter (fun c => c.1)).map (fun c => c.2)) := by
  induction cs generalizing msg with
  | nil => simp [String.join]
  | cons c cs ih =>
    rw [List.foldl_cons, ih]
    cases hc : c.1
    · simp [List.filter_cons, hc]
    · simp [List.filter_cons, hc, join_cons, String.append_assoc]

/-- The body of `gatherMsg` is the fold of its fourteen tests over the header. -/
theorem gatherMsg_eq_foldl (opts : Opts) (count : Int) (pattern : String) :
    gatherMsg opts count pattern =
      (criteriaClauses opts pattern).foldl (fun m c => if c.1 = true then m ++ c.2 else m)
        ("Found " ++ fmtD count ++ " matching processes") := by
  rfl

/-- C10: `gatherMsg` returns the header with the count followed by the
clauses of the configured criteria, one each and none for an unconfigured
criterion, in the fixed order of `criteriaClauses`; with no criterion
configured it returns the header alone. -/
theorem gatherMsg_spec (opts : Opts) (count : Int) (pattern : String) :
    gatherMsg opts count pattern =
      "Found " ++ fmtD count ++ " matching processes" ++
        String.join (configuredClauses opts pattern) ∧
    (opts.CmdPatterns = [] ∧ opts.State = "" ∧ opts.User = "" ∧ opts.Usernot = "" ∧
        opts.Vsz = 0 ∧ opts.Rss = 0 ∧ opts.Pcpu.isZero = true ∧ opts.Thcount = 0 ∧
        opts.EsecUnder = 0 ∧ opts.EsecOver = 0 ∧ opts.CPUUnder = 0 ∧ opts.CPUOver = 0 ∧
        opts.Ppid = "" ∧ opts.FilePid = "" →
      gatherMsg opts count pattern = "Found " ++ fmtD count ++ " matching processes") := by
  have h : gatherMsg opts count pattern =
      "Found " ++ fmtD count ++ " matching processes" ++
        String.join (configuredClauses opts pattern) := by
    rw [gatherMsg_eq_foldl, foldl_clauses]
    rfl
  refine ⟨h, ?_⟩
  rintro ⟨h1, h2, h3, h4, h5, h6, h7, h8, h9, h10, h11, h12, h13, h14⟩
  rw [h]
  simp [configuredClauses, criteriaClauses, h1, h2, h3, h4, h5, h6, h7, h8, h9, h10, h11,
    h12, h13, h14, String.join]

/-- Instances of C10: no criterion configured; and a state, a vsz and a ppid
criterion configured together with two include patterns. -/
theorem gatherMsg_spec_witness :
    gatherMsg defaultOpts 3 "foo" = "Found 3 matching processes" ∧
    gatherMsg { fooBarOpts with State := "Z", Vsz := 2048, Ppid := "1" } 0 "bar" =
      "Found 0 matching processes; cmd /bar/; state /Z/; vsz < 2048; ppid 1" := by
  refine ⟨?_, ?_⟩
  · rw [(gatherMsg_spec defaultOpts 3 "foo").2 (by decide)]
    decide
  · rw [(gatherMsg_spec { fooBarOpts with State := "Z", Vsz := 2048, Ppid := "1" } 0 "bar").1]
    decide

/-! ## Theorems on the run orchestrator -/

/-- The backward compatibility assignments leave the include patterns alone. -/
theorem backwardCompat_CmdPatterns (opts : Opts) :
    (backwardCompat opts).CmdPatterns = opts.CmdPatterns := by
  simp only [backwardCompat]
  split_ifs <;> rfl

/-- The backward compatibility assignments leave the exclude pattern alone. -/
theorem backwardCompat_CmdExcludePat (opts : Opts) :
    (backwardCompat opts).CmdExcludePat = opts.CmdExcludePat := by
  simp only [backwardCompat]
  split_ifs <;> rfl

/-- The compile loop stops with the error of a pattern when the patterns
before it compile. -/
theorem compilePatterns_error (E : Env) (pre : List String) (p : String)
    (post : List String) (e : String) (acc : List Regexp)
    (hpre : ∀ q ∈ pre, ∃ m, E.compile q = .ok m) (hp : E.compile p = .error e) :
    compilePatterns E (pre ++ p :: post) acc = .error e := by
  induction pre generalizing acc with
  | nil => simp [compilePatterns, regexpCompile, hp]
  | cons q pre ih =>
    obtain ⟨m, hm⟩ := hpre q (List.mem_cons_self q pre)
    simp only [List.cons_append, compilePatterns, regexpCompile, hm]
    exact ih _ (fun r hr => hpre r (List.mem_cons_of_mem q hr))

/-- The compile loop succeeds when every pattern compiles. -/
theorem compilePatterns_ok (E : Env) (pats : List String) (acc : List Regexp)
    (h : ∀ q ∈ pats, ∃ m, E.compile q = .ok m) :
    ∃ rs, compilePatterns E pats acc = .ok rs := by
  induction pats generalizing acc with
  | nil => exact ⟨acc, rfl⟩
  | cons q pats ih =>
    obtain ⟨m, hm⟩ := h q (List.mem_cons_self q pats)
    simp only [compilePatterns, regexpCompile, hm]
    exact ih _ (fun r hr => h r (List.mem_cons_of_mem q hr))

/-- A list with a pattern that does not compile splits at the first such
pattern. -/
theorem first_failing (E : Env) (pats : List String)
    (h : ∃ p ∈ pats, ∃ e, E.compile p = .error e) :
    ∃ pre p post e, pats = pre ++ p :: post ∧
      (∀ q ∈ pre, ∃ m, E.compile q = .ok m) ∧ E.compile p = .error e := by
  induction pats with
  | nil => simp at h
  | cons q pats ih =>
    cases hq : E.compile q with
    | error e => exact ⟨[], q, pats, e, rfl, by simp, hq⟩
    | ok m =>
      have h2 : ∃ p ∈ pats, ∃ e, E.compile p = .error e := by
        obtain ⟨p, hp, e, he⟩ := h
        rcases List.mem_cons.mp hp with rfl | hp
        · rw [hq] at he
          cases he
        · exact ⟨p, hp, e, he⟩
      obtain ⟨pre, p, post, e, hsplit, hpre, hp⟩ := ih h2
      refine ⟨q :: pre, p, post, e, by rw [hsplit]; rfl, ?_, hp⟩
      intro r hr
      rcases List.mem_cons.mp hr with rfl | hr
      · exact ⟨m, hq⟩
      · exact hpre r hr

/-- C4: when `getProcs` succeeds and some include pattern, or a non-empty
exclude pattern, does not compile, `run` returns UNKNOWN with the error text
of the compiler as the whole message, so without any match count or message
fragment. The text is that of the first include pattern that does not
compile, the patterns before it compiling, or that of the exclude pattern
when every include pattern compiles. -/
theorem run_invalid_pattern (E : Env) (opts : Opts) (procs : List procState)
    (hprocs : E.getProcs = .ok procs)
    (h : (∃ p ∈ opts.CmdPatterns, ∃ e, E.compile p = .error e) ∨
      (opts.CmdExcludePat ≠ "" ∧ ∃ e, E.compile opts.CmdExcludePat = .error e)) :
    ∃ p e, E.compile p = .error e ∧ run E opts = ⟨Status.UNKNOWN, e⟩ ∧
      ((∃ pre post, opts.CmdPatterns = pre ++ p :: post ∧
          ∀ q ∈ pre, ∃ m, E.compile q = .ok m) ∨
        ((∀ q ∈ opts.CmdPatterns, ∃ m, E.compile q = .ok m) ∧
          p = opts.CmdExcludePat ∧ p ≠ "")) := by
  by_cases hinc : ∃ p ∈ opts.CmdPatterns, ∃ e, E.compile p = .error e
  · obtain ⟨pre, p, post, e, hsplit, hpre, hp⟩ := first_failing E opts.CmdPatterns hinc
    refine ⟨p, e, hp, ?_, Or.inl ⟨pre, post, hsplit, hpre⟩⟩
    simp only [run, hprocs, backwardCompat_CmdPatterns, hsplit,
      compilePatterns_error E pre p post e [] hpre hp, NewChecker]
  · have hall : ∀ q ∈ opts.CmdPatterns, ∃ m, E.compile q = .ok m := by
      intro q hq
      cases hc : E.compile q with
      | error e => exact absurd ⟨q, hq, e, hc⟩ hinc
      | ok m => exact ⟨m, rfl⟩
    rcases h with h | ⟨hne, e, he⟩
    · exact absurd h hinc
    · obtain ⟨rs, hrs⟩ := compilePatterns_ok E opts.CmdPatterns [] hall
      refine ⟨opts.CmdExcludePat, e, he, ?_, Or.inr ⟨hall, rfl, hne⟩⟩
      have hb : (opts.CmdExcludePat != "") = true := by simpa using hne
      simp only [run, hprocs, backwardCompat_CmdPatterns, hrs, compileExclude,
        backwardCompat_CmdExcludePat, hb, if_true, regexpCompile, he, NewChecker]

/-- An instance of C4: the include patterns `foo` and `[foo`, of which the
first compiles and the second does not. -/
theorem run_invalid_pattern_witness :
    run (sampleEnv threeBars) { defaultOpts with CmdPatterns := ["foo", "[foo"] } =
        ⟨Status.UNKNOWN, "error parsing regexp: missing closing ]: `[foo`"⟩ ∧
    ∃ p e, (sampleEnv threeBars).compile p = .error e ∧
      run (sampleEnv threeBars) { defaultOpts with CmdPatterns := ["foo", "[foo"] } =
        ⟨Status.UNKNOWN, e⟩ ∧
      ((∃ pre post, ["foo", "[foo"] = pre ++ p :: post ∧
          ∀ q ∈ pre, ∃ m, (sampleEnv threeBars).compile q = .ok m) ∨
        ((∀ q ∈ ["foo", "[foo"], ∃ m, (sampleEnv threeBars).compile q = .ok m) ∧
          p = "" ∧ p ≠ "")) :=
  ⟨by decide,
    run_invalid_pattern (sampleEnv threeBars)
      { defaultOpts with CmdPatterns := ["foo", "[foo"] } threeBars rfl
      (Or.inl ⟨"[foo", by decide, _, rfl⟩)⟩

/-- C1, evaluated at an input where it fails: with the include patterns `foo`
and `bar`, default thresholds and three processes that all run `bar`, the
pattern `foo` has 0 matches (CRITICAL), the pattern `bar` has 3 (OK), and
`run` returns OK, the severity of the last pattern, where the maximum of the
two is CRITICAL. -/
theorem run_fooBar_status :
    regexpCompile (sampleEnv threeBars) "foo" = .ok (literalRegexp "foo") ∧
    regexpCompile (sampleEnv threeBars) "bar" = .ok (literalRegexp "bar") ∧
    (threeBars.filter (fun proc => matchProc (sampleEnv threeBars) fooBarOpts proc
        (literalRegexp "foo") matchAllRegexp)).length = 0 ∧
    (threeBars.filter (fun proc => matchProc (sampleEnv threeBars) fooBarOpts proc
        (literalRegexp "bar") matchAllRegexp)).length = 3 ∧
    mergeStatus fooBarOpts 0 Status.OK = Status.CRITICAL ∧
    mergeStatus fooBarOpts 3 Status.CRITICAL = Status.OK ∧
    (run (sampleEnv threeBars) fooBarOpts).Status = Status.OK := by
  refine ⟨rfl, rfl, ?_, ?_, ?_, ?_, ?_⟩ <;> decide

/-! ## Further theorems on the severity merger and the matcher -/

/-- C17: when critUnder != 0, warningUnder <= critUnder and warningOver is
unset, `mergeStatus` returns WARNING for no count, and every count below
warningUnder gives CRITICAL. -/
theorem mergeStatus_never_warning (opts : Opts)
    (hcu : opts.CritUnder ≠ 0) (hle : opts.WarningUnder ≤ opts.CritUnder)
    (hwo : opts.WarningOver = none) :
    (∀ (count : Int) (current : Status),
      mergeStatus opts count current ≠ Status.WARNING) ∧
    (∀ (count : Int) (current : Status), count < opts.WarningUnder →
      mergeStatus opts count current = Status.CRITICAL) := by
  have hcrit : ∀ count : Int, count < opts.WarningUnder → critCond opts count :=
    fun count hlt => Or.inl ⟨hcu, lt_of_lt_of_le hlt hle⟩
  refine ⟨?_, fun count current hlt => mergeStatus_of_crit opts count current (hcrit count hlt)⟩
  intro count current
  by_cases hc : critCond opts count
  · rw [mergeStatus_of_crit opts count current hc]
    decide
  · have hw : ¬ warnCond opts count := by
      rintro (⟨-, hlt⟩ | ⟨k, hk, -⟩)
      · exact hc (hcrit count hlt)
      · rw [hwo] at hk
        cases hk
    rw [mergeStatus_of_none opts count current hc hw]
    decide

/-- An instance of C17: the default options. -/
theorem mergeStatus_never_warning_witness :
    (∀ (count : Int) (current : Status),
      mergeStatus defaultOpts count current ≠ Status.WARNING) ∧
    (∀ (count : Int) (current : Status), count < defaultOpts.WarningUnder →
      mergeStatus defaultOpts count current = Status.CRITICAL) :=
  mergeStatus_never_warning defaultOpts (by decide) (by decide) rfl

/-- C15: with an empty exclude pattern string `run` passes the
match-everything expression as exclude regex, and `matchProc` gives the same
result for every exclude regex, so the same as for one that matches nothing;
with no include pattern configured `matchProc` gives the same result for
every include regex. -/
theorem matchProc_regex_unused (E : Env) (opts : Opts) (proc : procState) :
    (opts.CmdExcludePat = "" →
      compileExclude E opts = .ok matchAllRegexp ∧
      ∀ inc ex1 ex2 : Regexp,
        matchProc E opts proc inc ex1 = matchProc E opts proc inc ex2) ∧
    (opts.CmdPatterns = [] →
      ∀ inc1 inc2 ex : Regexp,
        matchProc E opts proc inc1 ex = matchProc E opts proc inc2 ex) := by
  refine ⟨fun h => ⟨?_, ?_⟩, fun h => ?_⟩
  · simp [compileExclude, h]
  · intro inc ex1 ex2
    simp [matchProc, h]
  · intro inc1 inc2 ex
    simp [matchProc, h]

/-- An instance of C15 under the default options (no include pattern, empty
exclude pattern): the process with pid 1 is accepted with the
match-everything exclude regex as it is with one that matches nothing. -/
theorem matchProc_regex_unused_witness :
    matchProc (sampleEnv []) defaultOpts (sampleProc "1" "init" "root")
        matchNoneRegexp matchAllRegexp = true ∧
    matchProc (sampleEnv []) defaultOpts (sampleProc "1" "init" "root")
        matchNoneRegexp matchAllRegexp =
      matchProc (sampleEnv []) defaultOpts (sampleProc "1" "init" "root")
        matchNoneRegexp matchNoneRegexp ∧
    matchProc (sampleEnv []) defaultOpts (sampleProc "1" "init" "root")
        matchNoneRegexp matchAllRegexp =
      matchProc (sampleEnv []) defaultOpts (sampleProc "1" "init" "root")
        matchAllRegexp matchAllRegexp :=
  ⟨by decide,
    ((matchProc_regex_unused (sampleEnv []) defaultOpts
      (sampleProc "1" "init" "root")).1 rfl).2 matchNoneRegexp matchAllRegexp matchNoneRegexp,
    (matchProc_regex_unused (sampleEnv []) defaultOpts
      (sampleProc "1" "init" "root")).2 rfl matchNoneRegexp matchAllRegexp matchAllRegexp⟩

/-! ## Theorems on the backward compatibility assignments -/

/-- C12: after the backward compatibility assignments warningUnder is
warnUnder if it was 1 and is unchanged otherwise, warningOver is warnOver if
it was unset and is unchanged otherwise, every other field is unchanged, and
doing the assignments a second time changes nothing. -/
theorem backwardCompat_spec (opts : Opts) :
    (backwardCompat opts).WarningUnder =
      (if opts.WarningUnder = 1 then opts.WarnUnder else opts.WarningUnder) ∧
    (backwardCompat opts).WarningOver =
      (if opts.WarningOver = none then opts.WarnOver else opts.WarningOver) ∧
    backwardCompat opts =
      { opts with
        WarningUnder := (backwardCompat opts).WarningUnder
        WarningOver := (backwardCompat opts).WarningOver } ∧
    backwardCompat (backwardCompat opts) = backwardCompat opts := by
  obtain ⟨wo, wno, co, wu, wnu, cu, a1, a2, a3, a4, a5, a6, a7, a8, a9, a10, a11, a12, a13,
    a14, a15, a16, a17⟩ := opts
  simp only [backwardCompat]
  by_cases h1 : wu = 1 <;> by_cases h2 : wnu = 1 <;> cases wo <;> cases wno <;>
    simp [h1, h2]

/-- An instance of C12: `--warn-under 3 --warn-over 7` with the canonical
flags left at their defaults. -/
theorem backwardCompat_spec_witness :
    (backwardCompat deprecatedOpts).WarningUnder = 3 ∧
    (backwardCompat deprecatedOpts).WarningOver = some 7 := by
  rw [(backwardCompat_spec deprecatedOpts).1, (backwardCompat_spec deprecatedOpts).2.1]
  decide

/-! ## Theorems on the loop of `run` -/

/-- The inner loop appends the accepted processes, in order, to what
`resultrocStates` held. -/
theorem scanProcs_eq (E : Env) (opts : Opts) (reg ex : Regexp)
    (procs acc : List procState) :
    scanProcs E opts reg ex procs acc =
      acc ++ procs.filter (fun proc => matchProc E opts proc reg ex) := by
  unfold scanProcs
  induction procs generalizing acc with
  | nil => simp
  | cons proc procs ih =>
    rw [List.foldl_cons, ih]
    cases h : matchProc E opts proc reg ex <;> simp [List.filter_cons, h]

/-- One iteration of the loop from a state whose `resultrocStates` is empty. -/
theorem patternStep_eq (E : Env) (opts : Opts) (ex : Regexp) (procs : List procState)
    (st : LoopState) (reg : Regexp) (hst : st.resultrocStates = []) :
    patternStep E opts ex procs st reg =
      { result := mergeStatus opts (matchCount E opts procs reg ex) st.result
        msg := st.msg ++ fragmentLine E opts procs ex reg
        resultrocStates := [] } := by
  simp [patternStep, scanProcs_eq, hst, matchCount, fragmentLine]

/-- The loop from a state whose `resultrocStates` is empty: the severity is
folded through `mergeStatus`, the fragments are appended to the message, and
`resultrocStates` is empty again at the end. -/
theorem foldl_patternStep (E : Env) (opts : Opts) (ex : Regexp) (procs : List procState)
    (regs : List Regexp) (st : LoopState) (hst : st.resultrocStates = []) :
    regs.foldl (patternStep E opts ex procs) st =
      { result := regs.foldl
          (fun cur reg => mergeStatus opts (matchCount E opts procs reg ex) cur) st.result
        msg := st.msg ++ String.join (regs.map (fragmentLine E opts procs ex))
        resultrocStates := [] } := by
  induction regs generalizing st with
  | nil =>
    cases st
    simp_all [String.join]
  | cons reg regs ih =>
    rw [List.foldl_cons, patternStep_eq E opts ex procs st reg hst, ih _ rfl]
    simp [join_cons, String.append_assoc]

/-- The loop of `run` in closed form. -/
theorem patternLoop_eq (E : Env) (opts : Opts) (ex : Regexp) (procs : List procState)
    (regs : List Regexp) :
    patternLoop E opts ex procs regs =
      { result := regs.foldl
          (fun cur reg => mergeStatus opts (matchCount E opts procs reg ex) cur) Status.OK
        msg := String.join (regs.map (fragmentLine E opts procs ex))
        resultrocStates := [] } := by
  unfold patternLoop
  rw [foldl_patternStep E opts ex procs regs _ rfl]
  simp

/-- The compile loop returns the compiled patterns in order, after what
`cmdPatRegexp` held. -/
theorem compilePatterns_forall (E : Env) (pats : List String) (regs acc : List Regexp)
    (h : List.Forall₂ (fun ptn reg => regexpCompile E ptn = .ok reg) pats regs) :
    compilePatterns E pats acc = .ok (acc ++ regs) := by
  induction h generalizing acc with
  | nil => simp [compilePatterns]
  | cons hreg _ ih =>
    simp only [compilePatterns, hreg]
    rw [ih]
    simp

/-- When every pattern compiles, `run` returns the outcome of its loop over
the evaluated patterns. -/
theorem run_eq_loop (E : Env) (opts : Opts) (procs : List procState)
    (regs : List Regexp) (ex : Regexp)
    (hprocs : E.getProcs = .ok procs)
    (hinc : List.Forall₂ (fun ptn reg => regexpCompile E ptn = .ok reg) opts.CmdPatterns regs)
    (hex : compileExclude E opts = .ok ex) :
    run E opts =
      NewChecker
        (patternLoop E (backwardCompat opts) ex procs (evaluatedPatterns regs)).result
        (patternLoop E (backwardCompat opts) ex procs (evaluatedPatterns regs)).msg := by
  have hex2 : compileExclude E (backwardCompat opts) = .ok ex := by
    rw [← hex]
    simp only [compileExclude, backwardCompat_CmdExcludePat]
  have hc : compilePatterns E (backwardCompat opts).CmdPatterns [] = .ok regs := by
    rw [backwardCompat_CmdPatterns, compilePatterns_forall E _ regs [] hinc]
    simp
  simp only [run, hprocs, hc, hex2, evaluatedPatterns]

/-- The result of `mergeStatus` is the same for every `current`. -/
theorem mergeStatus_current (opts : Opts) (count : Int) (c1 c2 : Status) :
    mergeStatus opts count c1 = mergeStatus opts count c2 := by
  rw [mergeStatus_eq, mergeStatus_eq]

/-- C13: whatever patterns were evaluated before, the count the loop of
`run` takes for a pattern is the number of processes of the full list that
`matchProc` accepts with that pattern, and it is this count that goes into
the severity and into the message fragment of the pattern; the patterns that
follow start from the state so obtained. The count is also the same across
configurations: for two non-empty lists of configured include patterns, the
criteria being otherwise the same, `matchProc` accepts the same processes
with the pattern, and the count the loop takes under the first list, after
any patterns evaluated before, is the match count under the second, so in
particular the match count with that pattern configured alone. -/
theorem count_independent (E : Env) (opts : Opts) (ex : Regexp) (procs : List procState)
    (before after : List Regexp) (reg : Regexp) :
    (((scanProcs E opts reg ex procs
        (patternLoop E opts ex procs before).resultrocStates).length : Nat) : Int) =
      matchCount E opts procs reg ex ∧
    patternStep E opts ex procs (patternLoop E opts ex procs before) reg =
      { result := mergeStatus opts (matchCount E opts procs reg ex)
          (patternLoop E opts ex procs before).result
        msg := (patternLoop E opts ex procs before).msg ++
          ("\n" ++ gatherMsg opts (matchCount E opts procs reg ex) reg.str)
        resultrocStates := [] } ∧
    patternLoop E opts ex procs (before ++ reg :: after) =
      after.foldl (patternStep E opts ex procs)
        (patternStep E opts ex procs (patternLoop E opts ex procs before) reg) ∧
    (∀ pats1 pats2 : List String, pats1 ≠ [] → pats2 ≠ [] →
      (∀ proc : procState,
        matchProc E { opts with CmdPatterns := pats1 } proc reg ex =
          matchProc E { opts with CmdPatterns := pats2 } proc reg ex) ∧
      (∀ before1 : List Regexp,
        (((scanProcs E { opts with CmdPatterns := pats1 } reg ex procs
            (patternLoop E { opts with CmdPatterns := pats1 } ex procs
              before1).resultrocStates).length : Nat) : Int) =
          matchCount E { opts with CmdPatterns := pats2 } procs reg ex)) ∧
    (∀ pats1 : List String, pats1 ≠ [] → ∀ before1 : List Regexp,
      (((scanProcs E { opts with CmdPatterns := pats1 } reg ex procs
          (patternLoop E { opts with CmdPatterns := pats1 } ex procs
            before1).resultrocStates).length : Nat) : Int) =
        matchCount E { opts with CmdPatterns := [reg.str] } procs reg ex) := by
  have hst : ∀ (o : Opts) (regs : List Regexp),
      (patternLoop E o ex procs regs).resultrocStates = [] := by
    intro o regs
    rw [patternLoop_eq]
  have hscan : ∀ (o : Opts) (regs : List Regexp),
      (((scanProcs E o reg ex procs
        (patternLoop E o ex procs regs).resultrocStates).length : Nat) : Int) =
      matchCount E o procs reg ex := by
    intro o regs
    rw [hst, scanProcs_eq]
    simp [matchCount]
  have hproc : ∀ pats1 pats2 : List String, pats1 ≠ [] → pats2 ≠ [] →
      ∀ proc : procState,
        matchProc E { opts with CmdPatterns := pats1 } proc reg ex =
          matchProc E { opts with CmdPatterns := pats2 } proc reg ex := by
    intro pats1 pats2 h1 h2 proc
    have e1 : (pats1.length == 0) = false := by simpa using h1
    have e2 : (pats2.length == 0) = false := by simpa using h2
    simp only [matchProc, e1, e2]
  have hcount : ∀ pats1 pats2 : List String, pats1 ≠ [] → pats2 ≠ [] →
      matchCount E { opts with CmdPatterns := pats1 } procs reg ex =
        matchCount E { opts with CmdPatterns := pats2 } procs reg ex := by
    intro pats1 pats2 h1 h2
    unfold matchCount
    rw [funext (hproc pats1 pats2 h1 h2)]
  refine ⟨hscan opts before, ?_, ?_, ?_, ?_⟩
  · rw [patternStep_eq E opts ex procs _ reg (hst opts before)]
    rfl
  · simp [patternLoop, List.foldl_append]
  · intro pats1 pats2 h1 h2
    refine ⟨hproc pats1 pats2 h1 h2, ?_⟩
    intro before1
    rw [hscan, hcount pats1 pats2 h1 h2]
  · intro pats1 h1 before1
    rw [hscan, hcount pats1 [reg.str] h1 (by simp)]

/-- Instances of C13. After the pattern `bar`, which three processes match,
the count for the pattern `foo` is 0, as it is when `foo` comes first. And
with the patterns `foo`, `bar`, `baz` configured, the count the loop takes for
`bar` after `foo` is 3, the match count with `bar` configured alone. -/
theorem count_independent_witness :
    (((scanProcs (sampleEnv threeBars) fooBarOpts (literalRegexp "foo") matchAllRegexp
        threeBars
        (patternLoop (sampleEnv threeBars) fooBarOpts matchAllRegexp threeBars
          [literalRegexp "bar"]).resultrocStates).length : Nat) : Int) = 0 ∧
    (((scanProcs (sampleEnv threeBars) { defaultOpts with CmdPatterns := ["foo", "bar", "baz"] }
        (literalRegexp "bar") matchAllRegexp threeBars
        (patternLoop (sampleEnv threeBars)
          { defaultOpts with CmdPatterns := ["foo", "bar", "baz"] } matchAllRegexp threeBars
          [literalRegexp "foo"]).resultrocStates).length : Nat) : Int) =
      matchCount (sampleEnv threeBars) { defaultOpts with CmdPatterns := ["bar"] } threeBars
        (literalRegexp "bar") matchAllRegexp ∧
    matchCount (sampleEnv threeBars) { defaultOpts with CmdPatterns := ["bar"] } threeBars
      (literalRegexp "bar") matchAllRegexp = 3 := by
  refine ⟨?_, ?_, by decide⟩
  · rw [(count_independent (sampleEnv threeBars) fooBarOpts matchAllRegexp threeBars
      [literalRegexp "bar"] [] (literalRegexp "foo")).1]
    decide
  · exact (count_independent (sampleEnv threeBars) defaultOpts matchAllRegexp threeBars
      [] [] (literalRegexp "bar")).2.2.2.2 ["foo", "bar", "baz"] (by decide)
      [literalRegexp "foo"]

/-- C11 as stated fails: with the include patterns `foo` and `bar`, which
compile, the message of `run` is not the two fragments with a newline between
them, since it begins with a newline. -/
theorem run_message_counterexample :
    List.Forall₂ (fun ptn reg => regexpCompile (sampleEnv threeBars) ptn = .ok reg)
      fooBarOpts.CmdPatterns [literalRegexp "foo", literalRegexp "bar"] ∧
    compileExclude (sampleEnv threeBars) fooBarOpts = .ok matchAllRegexp ∧
    (run (sampleEnv threeBars) fooBarOpts).Message =
      "\nFound 0 matching processes; cmd /foo/\nFound 3 matching processes; cmd /bar/" ∧
    (run (sampleEnv threeBars) fooBarOpts).Message ≠
      String.intercalate "\n"
        ((evaluatedPatterns [literalRegexp "foo", literalRegexp "bar"]).map
          (fragment (sampleEnv threeBars) (backwardCompat fooBarOpts) threeBars
            matchAllRegexp)) :=
  ⟨List.Forall₂.cons rfl (List.Forall₂.cons rfl List.Forall₂.nil), rfl,
    by decide, by decide⟩

/-- C11, amended: when `getProcs` succeeds and the patterns compile, the
message of `run` is the concatenation, in pattern order, of one piece per
evaluated pattern, each piece being a newline followed by the fragment
`gatherMsg` gives for the match count and the text of that pattern; so the
message begins with a newline. -/
theorem run_message (E : Env) (opts : Opts) (procs : List procState)
    (regs : List Regexp) (ex : Regexp)
    (hprocs : E.getProcs = .ok procs)
    (hinc : List.Forall₂ (fun ptn reg => regexpCompile E ptn = .ok reg) opts.CmdPatterns regs)
    (hex : compileExclude E opts = .ok ex) :
    (run E opts).Message =
      String.join ((evaluatedPatterns regs).map
        (fun reg => "\n" ++ fragment E (backwardCompat opts) procs ex reg)) := by
  rw [run_eq_loop E opts procs regs ex hprocs hinc hex, patternLoop_eq]
  rfl

/-- An instance of the amended C11: the include patterns `foo` and `bar`
over three processes that run `bar`. -/
theorem run_message_witness :
    (run (sampleEnv threeBars) fooBarOpts).Message =
      String.join ((evaluatedPatterns [literalRegexp "foo", literalRegexp "bar"]).map
        (fun reg => "\n" ++ fragment (sampleEnv threeBars) (backwardCompat fooBarOpts)
          threeBars matchAllRegexp reg)) :=
  run_message (sampleEnv threeBars) fooBarOpts threeBars
    [literalRegexp "foo", literalRegexp "bar"] matchAllRegexp rfl
    (List.Forall₂.cons rfl (List.Forall₂.cons rfl List.Forall₂.nil)) rfl

/-- C16: `mergeStatus` returns the same severity for every `current`, and
when `getProcs` succeeds and the include patterns, of which there is at least
one, compile, the severity `run` returns is the one `mergeStatus` gives for
the match count of the last pattern. -/
theorem run_status_last (E : Env) (opts : Opts) (procs : List procState)
    (regsBefore : List Regexp) (regLast : Regexp) (ex : Regexp)
    (hprocs : E.getProcs = .ok procs)
    (hinc : List.Forall₂ (fun ptn reg => regexpCompile E ptn = .ok reg)
      opts.CmdPatterns (regsBefore ++ [regLast]))
    (hex : compileExclude E opts = .ok ex) :
    (∀ (o : Opts) (count : Int) (c1 c2 : Status),
      mergeStatus o count c1 = mergeStatus o count c2) ∧
    ∀ current : Status,
      (run E opts).Status =
        mergeStatus (backwardCompat opts)
          (matchCount E (backwardCompat opts) procs regLast ex) current := by
  refine ⟨mergeStatus_current, fun current => ?_⟩
  rw [run_eq_loop E opts procs _ ex hprocs hinc hex, patternLoop_eq]
  have hne : evaluatedPatterns (regsBefore ++ [regLast]) = regsBefore ++ [regLast] := by
    simp [evaluatedPatterns]
  simp only [NewChecker, hne, List.foldl_append, List.foldl_cons, List.foldl_nil]
  exact mergeStatus_current _ _ _ _

/-- An instance of C16: the include patterns `foo` (0 matches) and `bar` (3
matches) under default thresholds give the severity of the count 3, OK. -/
theorem run_status_last_witness :
    (run (sampleEnv threeBars) fooBarOpts).Status =
      mergeStatus (backwardCompat fooBarOpts)
        (matchCount (sampleEnv threeBars) (backwardCompat fooBarOpts) threeBars
          (literalRegexp "bar") matchAllRegexp) Status.CRITICAL ∧
    mergeStatus (backwardCompat fooBarOpts) 3 Status.CRITICAL = Status.OK :=
  ⟨(run_status_last (sampleEnv threeBars) fooBarOpts threeBars [literalRegexp "foo"]
      (literalRegexp "bar") matchAllRegexp rfl
      (List.Forall₂.cons rfl (List.Forall₂.cons rfl List.Forall₂.nil)) rfl).2
      Status.CRITICAL,
    by decide⟩

/-! ## Theorems on the order of the process list -/

/-- The matcher reads the environment only for the two pids. -/
theorem matchProc_env (E1 E2 : Env) (opts : Opts) (proc : procState) (reg ex : Regexp)
    (hpid : E1.getpid = E2.getpid) (hppid : E1.getppid = E2.getppid) :
    matchProc E1 opts proc reg ex = matchProc E2 opts proc reg ex := by
  simp only [matchProc, hpid, hppid]

/-- The match count is the same for two environments with the same pids and
two process lists that are permutations of each other. -/
theorem matchCount_perm (E1 E2 : Env) (opts : Opts) (procs1 procs2 : List procState)
    (reg ex : Regexp) (hpid : E1.getpid = E2.getpid) (hppid : E1.getppid = E2.getppid)
    (h : procs1.Perm procs2) :
    matchCount E1 opts procs1 reg ex = matchCount E2 opts procs2 reg ex := by
  have hf : (fun proc => matchProc E1 opts proc reg ex) =
      (fun proc => matchProc E2 opts proc reg ex) :=
    funext (fun proc => matchProc_env E1 E2 opts proc reg ex hpid hppid)
  unfold matchCount
  rw [hf, (h.filter _).length_eq]

/-- The loop of `run` gives the same state for two process lists that are
permutations of each other. -/
theorem patternLoop_perm (E1 E2 : Env) (opts : Opts) (ex : Regexp)
    (procs1 procs2 : List procState) (regs : List Regexp)
    (hpid : E1.getpid = E2.getpid) (hppid : E1.getppid = E2.getppid)
    (h : procs1.Perm procs2) :
    patternLoop E1 opts ex procs1 regs = patternLoop E2 opts ex procs2 regs := by
  have hc : ∀ reg, matchCount E1 opts procs1 reg ex = matchCount E2 opts procs2 reg ex :=
    fun reg => matchCount_perm E1 E2 opts procs1 procs2 reg ex hpid hppid h
  have hfrag : fragmentLine E1 opts procs1 ex = fragmentLine E2 opts procs2 ex := by
    funext reg
    simp only [fragmentLine, hc]
  rw [patternLoop_eq, patternLoop_eq, hfrag]
  simp only [hc]

/-- The compile loop reads the environment only for the compiler. -/
theorem compilePatterns_env (E1 E2 : Env) (pats : List String) (acc : List Regexp)
    (hcomp : E1.compile = E2.compile) :
    compilePatterns E1 pats acc = compilePatterns E2 pats acc := by
  induction pats generalizing acc with
  | nil => rfl
  | cons ptn pats ih =>
    simp only [compilePatterns, regexpCompile, hcomp]
    cases E2.compile ptn with
    | error err => rfl
    | ok m => exact ih _

/-- C14: for every criteria, two process lists that are permutations of each
other give the same outcome of `run`, severity and message. -/
theorem run_perm (E : Env) (opts : Opts) (procs1 procs2 : List procState)
    (h : procs1.Perm procs2) :
    run { E with getProcs := .ok procs1 } opts = run { E with getProcs := .ok procs2 } opts ∧
    (run { E with getProcs := .ok procs1 } opts).Status =
      (run { E with getProcs := .ok procs2 } opts).Status ∧
    (run { E with getProcs := .ok procs1 } opts).Message =
      (run { E with getProcs := .ok procs2 } opts).Message := by
  have hrun : run { E with getProcs := .ok procs1 } opts =
      run { E with getProcs := .ok procs2 } opts := by
    simp only [run]
    rw [compilePatterns_env { E with getProcs := .ok procs1 } { E with getProcs := .ok procs2 }
      _ [] rfl]
    cases compilePatterns { E with getProcs := .ok procs2 } (backwardCompat opts).CmdPatterns
        [] with
    | error err => rfl
    | ok regs =>
      have hex : compileExclude { E with getProcs := .ok procs1 } (backwardCompat opts) =
          compileExclude { E with getProcs := .ok procs2 } (backwardCompat opts) := rfl
      simp only [hex]
      cases compileExclude { E with getProcs := .ok procs2 } (backwardCompat opts) with
      | error err => rfl
      | ok ex =>
        simp only [patternLoop_perm { E with getProcs := .ok procs1 }
          { E with getProcs := .ok procs2 } (backwardCompat opts) ex procs1 procs2 _ rfl rfl h]
  exact ⟨hrun, by rw [hrun], by rw [hrun]⟩

/-- An instance of C14: the three processes that run `bar`, in two orders,
with the include patterns `foo` and `bar`. -/
theorem run_perm_witness :
    run { sampleEnv [] with getProcs := .ok threeBars } fooBarOpts =
      run { sampleEnv [] with getProcs := .ok threeBars.reverse } fooBarOpts :=
  (run_perm (sampleEnv []) fooBarOpts threeBars threeBars.reverse
    (List.reverse_perm threeBars).symm).1

end CheckProcs
